import Mathlib

/-!
Verification of the coordinate-sniper operation-queue synchronization engine.

This file is a shallow embedding, in Lean 4, of the synchronization core of the
repository:

* `src/local_db.py` — the SQLite-backed Local State Store (`LocalDB`), modelled
  as an association list keyed by `user_id`;
* `src/unified_sync_engine.py` — the unified dispatcher
  (`report_error_to_server`, `process_create_user_operation`,
  `process_get_mind_report_operation`, `process_operation`, `sync_loop`);
* `src/sync_engine.py` — the legacy per-user engine (`process_user`).

External collaborators (the Convex client, the GUI automation executors
`create_user` and `import_mind_report`, the file system, and the uploader) are
opaque to the core; their outcomes are supplied as explicit parameters, and the
remote calls the engine makes are recorded in an event trace.  Timestamps are
abstract naturals (only null-ness of `processed_at` matters to the engine).
-/

namespace CoordinateSniper

/-- Status of user processing, from `local_db.UserStatus`
(`pending` / `processing` / `completed` / `failed`). -/
inductive UserStatus
  | pending
  | processing
  | completed
  | failed
deriving DecidableEq, Repr

/-- One row of the `users` table of `local_db.LocalDB`.  `created_at` and
`updated_at` are timestamp columns the engine never reads back; they are not
modelled.  `processed_at` is kept because the spec states an invariant about
its null-ness; its value is an abstract `Nat` tick. -/
structure UserRecord where
  client_code : String
  first_name : String
  last_name : Option String
  status : UserStatus
  recording_link : Option String
  error_message : Option String
  retry_count : Nat
  processed_at : Option Nat
deriving DecidableEq, Repr

/-- The `users` table: rows keyed by `user_id` (`user_id TEXT PRIMARY KEY`).
SQL `SELECT ... WHERE user_id = ?` is `find?` on the first component; inserts
append at the end. -/
abbrev DB := List (String × UserRecord)

/-- `LocalDB.get_user`: `SELECT * FROM users WHERE user_id = ?`, `None` when
no row matches. -/
def get_user (db : DB) (uid : String) : Option UserRecord :=
  (db.find? (fun p => p.1 == uid)).map Prod.snd

/-- `LocalDB.add_user`: `INSERT OR IGNORE INTO users (user_id, client_code,
first_name, last_name, status) VALUES (?, ?, ?, ?, 'pending')`.  The omitted
columns take their schema defaults: `retry_count` 0, `recording_link`,
`error_message` and `processed_at` NULL.  `OR IGNORE` makes the insert a no-op
when a row with the same primary key exists. -/
def add_user (db : DB) (uid cc fn : String) (ln : Option String) : DB :=
  match get_user db uid with
  | some _ => db
  | none => db ++ [(uid,
      { client_code := cc
        first_name := fn
        last_name := ln
        status := .pending
        recording_link := none
        error_message := none
        retry_count := 0
        processed_at := none })]

/-- The row-level effect of `LocalDB.update_status`: status, recording_link
and error_message are overwritten with the arguments (Python defaults both
optionals to `None`), and `processed_at` is stamped with the current time
exactly when the new status is completed or failed, else set to NULL. -/
def update_status_row (r : UserRecord) (st : UserStatus)
    (link err : Option String) (now : Nat) : UserRecord :=
  { r with
    status := st
    recording_link := link
    error_message := err
    processed_at :=
      if st = .completed ∨ st = .failed then some now else none }

/-- `LocalDB.update_status`: `UPDATE users SET status = ?, recording_link = ?,
error_message = ?, processed_at = ?, updated_at = CURRENT_TIMESTAMP WHERE
user_id = ?`.  Rows with other ids are untouched; an absent id matches no row
and the call is a no-op. -/
def update_status (db : DB) (uid : String) (st : UserStatus)
    (link err : Option String) (now : Nat) : DB :=
  db.map (fun p =>
    if p.1 == uid then (p.1, update_status_row p.2 st link err now) else p)

/-- `LocalDB.increment_retry` (the table effect): `UPDATE users SET
retry_count = retry_count + 1 WHERE user_id = ?`.  Status, payload, error and
`processed_at` are untouched. -/
def increment_retry (db : DB) (uid : String) : DB :=
  db.map (fun p =>
    if p.1 == uid then (p.1, { p.2 with retry_count := p.2.retry_count + 1 })
    else p)

/-- The value `LocalDB.increment_retry` returns: the `SELECT retry_count`
re-read after the update.  `none` models the `fetchone()[0]` crash on an
absent id. -/
def increment_retry_value (db : DB) (uid : String) : Option Nat :=
  (get_user (increment_retry db uid) uid).map (fun r => r.retry_count)

/-- `LocalDB.reset_user`: `UPDATE users SET status = 'pending',
processed_at = NULL WHERE user_id = ?`.  Note it leaves `retry_count`,
`recording_link` and `error_message` as they were. -/
def reset_user (db : DB) (uid : String) : DB :=
  db.map (fun p =>
    if p.1 == uid then
      (p.1, { p.2 with status := .pending, processed_at := none })
    else p)

/-- `LocalDB.is_user_processed`: returns `False` when no row exists, else
`status == 'completed'`.  (Its docstring speaks of "completed or failed
beyond retries", but the code tests only completed.) -/
def is_user_processed (db : DB) (uid : String) : Bool :=
  match get_user db uid with
  | none => false
  | some r => r.status == .completed

/-- `LocalDB.get_failed_users`: `SELECT * FROM users WHERE status = 'failed'
AND retry_count < ?`. -/
def get_failed_users (db : DB) (maxRetries : Nat) : List (String × UserRecord) :=
  db.filter (fun p => p.2.status == .failed && p.2.retry_count < maxRetries)

/-- `LocalDB.get_pending_users`: `SELECT * FROM users WHERE status =
'pending'`. -/
def get_pending_users (db : DB) : List (String × UserRecord) :=
  db.filter (fun p => p.2.status == .pending)

/-! ### The event trace of the engine's external calls

Every remote call the engine makes (and every Task Executor invocation) is
recorded as one event.  The `ok` flag of a mutation event says whether the
Convex call succeeded or raised; a call that is never reached produces no
event, mirroring Python's try-block control flow where an earlier raise in
the same `try` skips the later calls. -/

/-- One observable external action of the engine. -/
inductive Event
  /-- a Task Executor was invoked (`create_user` / `import_mind_report`) -/
  | execCall
  /-- `operations:completeOperation` was attempted -/
  | completeAttempt (ok : Bool)
  /-- `operations:updateOperationStatus` was attempted with this status and
  optional `errorReason` -/
  | opStatusMut (status : String) (err : Option String) (ok : Bool)
  /-- `user:updateSyncStatus` / `user:updateMindReportStatus` was attempted -/
  | syncStatusMut (status : String) (err : Option String) (ok : Bool)
  /-- `user:updateRecordingLink` / `user:updateMindReportLink` was attempted -/
  | linkMut (link : String) (ok : Bool)
  /-- `wait(1.0)` between reporter attempts -/
  | waitEvent
deriving DecidableEq, Repr

/-- Executor invocations in a trace. -/
def countExec (tr : List Event) : Nat := tr.count Event.execCall

/-- `operations:completeOperation` attempts in a trace. -/
def countCompleteAttempts (tr : List Event) : Nat :=
  (tr.filter (fun e => match e with
    | .completeAttempt _ => true
    | _ => false)).length

/-- Messages of the upstream "failed" reports actually delivered (mutation
attempts with status `"failed"` that succeeded). -/
def deliveredFailed (tr : List Event) : List String :=
  tr.filterMap (fun e => match e with
    | .opStatusMut st err ok =>
        if st = "failed" && ok then err else none
    | .syncStatusMut st err ok =>
        if st = "failed" && ok then err else none
    | _ => none)

/-- `wait(1.0)` calls in a trace. -/
def countWaits (tr : List Event) : Nat := tr.count Event.waitEvent

/-! ### Status Reporter (`report_error_to_server`)

`unified_sync_engine.report_error_to_server` and
`mind_report_sync.report_error_to_server` are the same loop, differing only
in the mutation they call (`operations:updateOperationStatus` vs
`user:updateMindReportStatus`); the model follows the unified engine's.  The
oracle `ok i` says whether the `i`-th mutation attempt (counting from 0)
would succeed.  Every exception from the mutation is caught inside the loop,
so the function is total and returns a plain boolean ack. -/

/-- The reporter loop from attempt number `attempt`, with `remaining`
iterations of `range(max_retries)` left.  Returns
(ack, number of mutation attempts made, events emitted). -/
def report_go (msg : String) (ok : Nat → Bool) :
    Nat → Nat → Bool × Nat × List Event
  | _, 0 => (false, 0, [])
  | attempt, 1 =>
      -- last iteration: on failure, return False without waiting
      if ok attempt then (true, 1, [.opStatusMut "failed" (some msg) true])
      else (false, 1, [.opStatusMut "failed" (some msg) false])
  | attempt, n + 2 =>
      if ok attempt then (true, 1, [.opStatusMut "failed" (some msg) true])
      else
        let r := report_go msg ok (attempt + 1) (n + 1)
        (r.1, r.2.1 + 1,
          .opStatusMut "failed" (some msg) false :: .waitEvent :: r.2.2)

/-- `report_error_to_server(client, operation_id, error_msg, max_retries)`:
up to `maxRetries` mutation attempts, `wait(1.0)` between consecutive
attempts, returning `true` at the first success and `false` after
exhaustion.  The source's default for `max_retries` is 3. -/
def report_error_to_server (msg : String) (ok : Nat → Bool)
    (maxRetries : Nat) : Bool × Nat × List Event :=
  report_go msg ok 0 maxRetries

/-! ### Task Executor outcomes -/

/-- Outcome of the `create_user` GUI executor as observed by the caller:
a returned clipboard string, a raised exception with message `msg`, or a
`KeyboardInterrupt` surfacing during the long-running action. -/
inductive ExecResult
  | success (link : String)
  | raiseErr (msg : String)
  | interrupt
deriving DecidableEq, Repr

/-- Outcome of the `import_mind_report` executor: a returned path, a raised
`RuntimeError`, any other exception, or a `KeyboardInterrupt`. -/
inductive ImportResult
  | ok (path : String)
  | runtimeErr (msg : String)
  | otherErr (msg : String)
  | interrupt
deriving DecidableEq, Repr

/-- Outcome of `upload_file_to_convex`: a returned value (possibly `None` or
empty, both falsy in Python) or a raised exception. -/
inductive UploadResult
  | ok (link : Option String)
  | raiseErr (msg : String)
deriving DecidableEq, Repr

/-- Python's `str.strip()`: the string without leading and trailing
whitespace. -/
def pyStrip (s : String) : String :=
  String.mk
    (((s.data.dropWhile Char.isWhitespace).reverse.dropWhile
      Char.isWhitespace).reverse)

/-! ### `process_create_user_operation` (unified engine)

The environment bundles the outcomes of the collaborators the function calls:
each `...Ok` boolean says whether the corresponding Convex mutation succeeds,
`mysql` is the `check_patient_exists` result (`none` = the check raised),
`exec` the `create_user` executor outcome, and `repOk` the attempt oracle for
`report_error_to_server`.  `now` is the timestamp `datetime.now()` would
stamp into `processed_at`. -/
structure CreateEnv where
  now : Nat
  procOpOk : Bool
  procSyncOk : Bool
  mysql : Option Bool
  mysqlSyncOk : Bool
  mysqlCompleteOk : Bool
  gateCompleteOk : Bool
  exec : ExecResult
  linkMutOk : Bool
  completeMutOk : Bool
  repOk : Nat → Bool
  intrOpOk : Bool
  intrSyncOk : Bool

/-- The events of the best-effort "processing" try-block (lines 97–107 of
`unified_sync_engine.py`): `updateOperationStatus processing` then, only if
that did not raise, `updateSyncStatus processing`; any exception is passed
over. -/
def processingEvents (env : CreateEnv) : List Event :=
  Event.opStatusMut "processing" none env.procOpOk ::
    (if env.procOpOk then [Event.syncStatusMut "processing" none env.procSyncOk]
     else [])

/-- `process_create_user_operation(operation, user, client, db)` from
`unified_sync_engine.py`.  Returns `.ok (db, trace)` on normal return and
`.error (db, trace)` when a `KeyboardInterrupt` is re-raised to the caller
(the state and trace at the moment of the raise).  Control flow mirrors the
source line by line:

1. gate on `db.is_user_processed`: skip and best-effort
   `completeOperation`;
2. `add_user` when no local row, then `update_status(PROCESSING)`;
3. best-effort "processing" mutations;
4. MySQL pre-check: on `True`, best-effort completed mutations and local
   `update_status(COMPLETED, recording_link=None)`; a raising check is
   logged and ignored;
5. run `create_user`; non-empty stripped link ⇒ try the two payload
   mutations, and mark Completed locally whether or not they raised;
   empty link ⇒ reporter + local Failed; raised exception ⇒ reporter +
   local Failed; `KeyboardInterrupt` ⇒ best-effort pending mutations,
   local `update_status(PENDING, error_message="Interrupted by user")`,
   re-raise. -/
def process_create_user_operation (env : CreateEnv)
    (uid cc fn ln : String) (db : DB) :
    Except (DB × List Event) (DB × List Event) :=
  if is_user_processed db uid then
    .ok (db, [.completeAttempt env.gateCompleteOk])
  else
    let db1 := match get_user db uid with
      | none => add_user db uid cc fn (some ln)
      | some _ => db
    let db2 := update_status db1 uid .processing none none env.now
    let ev1 := processingEvents env
    match env.mysql with
    | some true =>
        let ev2 := Event.syncStatusMut "completed"
            (some ("Patient already exists in MySQL database (PatientCode: "
              ++ cc ++ ")")) env.mysqlSyncOk ::
          (if env.mysqlSyncOk then [Event.completeAttempt env.mysqlCompleteOk]
           else [])
        .ok (update_status db2 uid .completed none none env.now, ev1 ++ ev2)
    | _ =>
      -- `some false`: patient absent; `none`: the check raised and the
      -- exception is caught, logged and creation continues.
      match env.exec with
      | .success link =>
          if pyStrip link ≠ "" then
            -- `if recording_link and recording_link.strip():`
            -- (a non-blank strip implies a truthy string)
            let ev2 := Event.execCall :: Event.linkMut link env.linkMutOk ::
              (if env.linkMutOk then [Event.completeAttempt env.completeMutOk]
               else [])
            -- both the try and the except branch run
            -- `db.update_status(user_id, COMPLETED, recording_link=...)`
            .ok (update_status db2 uid .completed (some link) none env.now,
              ev1 ++ ev2)
          else
            let msg := "Failed to get recording link (empty or None)"
            let rep := report_error_to_server msg env.repOk 3
            .ok (update_status db2 uid .failed none (some msg) env.now,
              ev1 ++ Event.execCall :: rep.2.2)
      | .raiseErr msg =>
          let rep := report_error_to_server msg env.repOk 3
          .ok (update_status db2 uid .failed none (some msg) env.now,
            ev1 ++ Event.execCall :: rep.2.2)
      | .interrupt =>
          let evI := Event.execCall ::
            Event.opStatusMut "pending" (some "Interrupted by user")
              env.intrOpOk ::
            (if env.intrOpOk then
              [Event.syncStatusMut "pending" (some "Interrupted by user")
                env.intrSyncOk]
             else [])
          .error
            (update_status db2 uid .pending none (some "Interrupted by user")
              env.now, ev1 ++ evI)

/-- Events of one `report_error_to_server(client, id, msg)` call with the
source's default `max_retries = 3`. -/
def reportEv (msg : String) (ok : Nat → Bool) : List Event :=
  (report_error_to_server msg ok 3).2.2

/-! ### `process_get_mind_report_operation` (unified engine)

This handler takes no `LocalDB` at all: the local store is neither consulted
nor written on this path.  Error messages reproduce the source's f-strings;
the appended Python traceback text (opaque dynamic content) is omitted. -/
structure MindEnv where
  procOpOk : Bool
  procSyncOk : Bool
  importRes : ImportResult
  fileExistsB : Bool
  /-- `os.path.getsize` result; `.error m` models a raised exception -/
  fileSize : Except String Nat
  upload : UploadResult
  linkMutOk : Bool
  completeMutOk : Bool
  /-- message of the exception when one of the two save mutations raises -/
  saveErrMsg : String
  repOk : Nat → Bool
  intrOpOk : Bool
  intrSyncOk : Bool

/-- `process_get_mind_report_operation(operation, user, client)` from
`unified_sync_engine.py`.  `.error tr` models the re-raised
`KeyboardInterrupt`.  `import_mind_report` (the Task Executor) is invoked
unconditionally — there is no idempotency gate on this path. -/
def process_get_mind_report_operation (env : MindEnv) (uid cc : String) :
    Except (List Event) (List Event) :=
  let ev1 := Event.opStatusMut "processing" none env.procOpOk ::
    (if env.procOpOk then [Event.syncStatusMut "processing" none env.procSyncOk]
     else [])
  match env.importRes with
  | .interrupt =>
      let msg := "MIND_REPORT_INTERRUPTED: Process interrupted by user"
      .error (ev1 ++ Event.execCall ::
        Event.opStatusMut "pending" (some msg) env.intrOpOk ::
        (if env.intrOpOk then
          [Event.syncStatusMut "pending" (some msg) env.intrSyncOk]
         else []))
  | .runtimeErr m =>
      let msg := "MIND_REPORT_IMPORT_FAILED: " ++ m
      .ok (ev1 ++ Event.execCall :: reportEv msg env.repOk)
  | .otherErr m =>
      let msg := "MIND_REPORT_IMPORT_UNEXPECTED: Unexpected error during "
        ++ "mind report import sequence: " ++ m ++ ". Client code: " ++ cc
        ++ ", User ID: " ++ uid
      .ok (ev1 ++ Event.execCall :: reportEv msg env.repOk)
  | .ok path =>
      -- `if not file_path or not os.path.exists(file_path):`
      if path = "" ∨ ¬env.fileExistsB then
        let msg := "MIND_REPORT_EXPORT_FAILED: import_mind_report returned "
          ++ "None or file doesn't exist. Client code: " ++ cc
          ++ ", File path: " ++ (if path = "" then "None" else path)
        .ok (ev1 ++ Event.execCall :: reportEv msg env.repOk)
      else
        match env.fileSize with
        | .error m =>
            let msg := "MIND_REPORT_FILE_CHECK_ERROR: Error checking file "
              ++ "size: " ++ m ++ ". File path: " ++ path
            .ok (ev1 ++ Event.execCall :: reportEv msg env.repOk)
        | Except.ok 0 =>
            let msg := "MIND_REPORT_FILE_EMPTY: Exported file is empty "
              ++ "(0 bytes): " ++ path
            .ok (ev1 ++ Event.execCall :: reportEv msg env.repOk)
        | Except.ok (_ + 1) =>
            match env.upload with
            | .raiseErr m =>
                let msg := "MIND_REPORT_UPLOAD_ERROR: Error uploading file "
                  ++ "to server: " ++ m ++ ". File path: " ++ path
                  ++ ", Client code: " ++ cc
                .ok (ev1 ++ Event.execCall :: reportEv msg env.repOk)
            | .ok fileLink =>
                -- `if not file_link:` — None and "" are both falsy
                if fileLink.getD "" = "" then
                  let msg := "MIND_REPORT_UPLOAD_FAILED: File upload "
                    ++ "returned None or empty. File path: " ++ path
                  .ok (ev1 ++ Event.execCall :: reportEv msg env.repOk)
                else
                  let l := fileLink.getD ""
                  let evS := Event.execCall :: Event.linkMut l env.linkMutOk ::
                    (if env.linkMutOk then
                      [Event.completeAttempt env.completeMutOk]
                     else [])
                  if env.linkMutOk && env.completeMutOk then
                    .ok (ev1 ++ evS)
                  else
                    let msg := "MIND_REPORT_DB_SAVE_ERROR: Failed to save "
                      ++ "file link to database: " ++ env.saveErrMsg
                      ++ ". File link: " ++ l ++ ", File path: " ++ path
                    .ok (ev1 ++ evS ++ reportEv msg env.repOk)

/-! ### `process_operation` — operation-type routing -/

/-- The collaborator outcomes `process_operation` threads to whichever
handler the `operationType` selects, plus the attempt oracle of the
reporter it calls itself on an unknown type or an escaped exception. -/
structure OpEnv where
  createEnv : CreateEnv
  mindEnv : MindEnv
  repOk : Nat → Bool

/-- `process_operation(operation, client, db)` from
`unified_sync_engine.py`: route on `operation["operationType"]`.
`"create_user"` without a `LocalDB` raises a `RuntimeError` that the
function's own generic handler converts into a
`CRITICAL_ERROR_IN_PROCESSING` report; an unknown type sends an
`Unknown operation type: ...` report and invokes no executor;
`KeyboardInterrupt` is re-raised (the `.error` case). -/
def process_operation (env : OpEnv) (opType uid cc fn ln : String)
    (db : Option DB) :
    Except (Option DB × List Event) (Option DB × List Event) :=
  if opType = "create_user" then
    match db with
    | none =>
        .ok (none, reportEv
          ("CRITICAL_ERROR_IN_PROCESSING: LocalDB required for create_user "
            ++ "operations") env.repOk)
    | some d =>
        match process_create_user_operation env.createEnv uid cc fn ln d with
        | .ok (d2, tr) => .ok (some d2, tr)
        | .error (d2, tr) => .error (some d2, tr)
  else if opType = "get_mind_report" then
    match process_get_mind_report_operation env.mindEnv uid cc with
    | .ok tr => .ok (db, tr)
    | .error tr => .error (db, tr)
  else
    .ok (db, reportEv ("Unknown operation type: " ++ opType) env.repOk)

/-! ### `sync_loop` batch processing (unified engine)

Per operation of a received batch, `sync_loop` skips items whose `status`
field is not `"pending"`, otherwise calls `process_operation` inside a
`try` that re-raises `KeyboardInterrupt` and catches every other exception
before moving to the next item. -/

/-- Abstract outcome of one `process_operation` call as seen by the loop. -/
inductive StepOutcome
  | ok
  | exn
  | intr
deriving DecidableEq, Repr

/-- The inner per-batch loop of `sync_loop`: for each queue item
(`status` field, outcome of processing it), records whether
`process_operation` was invoked on it; the second component is `true` when
a `KeyboardInterrupt` abandoned the rest of the batch. -/
def runBatch : List (String × StepOutcome) → List Bool × Bool
  | [] => ([], false)
  | (st, b) :: rest =>
      if st ≠ "pending" then
        let r := runBatch rest
        (false :: r.1, r.2)
      else
        match b with
        | .intr => (true :: rest.map (fun _ => false), true)
        | _ =>
            -- `.ok`, and `.exn` caught by `except Exception`: continue
            let r := runBatch rest
            (true :: r.1, r.2)

/-! ### Legacy engine: `sync_engine.process_user`

Differences from the unified handler, faithfully kept: the recording-link
mutation is inside the one big `try`, so its failure lands in the generic
handler which calls `db.increment_retry` then marks Failed; on any
executor failure `increment_retry` runs before the Failed transition; no
upstream report of any kind is sent; the success test is plain truthiness
(`if recording_link:`, no `strip()`); there is no `KeyboardInterrupt`
handler, so an interrupt propagates with the record still Processing. -/
structure LegacyEnv where
  now : Nat
  exec : ExecResult
  linkMutOk : Bool
  /-- `str(e)` of the exception when `user:updateRecordingLink` raises -/
  mutErrMsg : String

/-- `process_user(user, client, db)` from `sync_engine.py`. -/
def process_user (env : LegacyEnv) (uid cc fn ln : String) (db : DB) :
    Except (DB × List Event) (DB × List Event) :=
  if is_user_processed db uid then
    .ok (db, [])
  else
    let db1 := match get_user db uid with
      | none => add_user db uid cc fn (some ln)
      | some _ => db
    let db2 := update_status db1 uid .processing none none env.now
    match env.exec with
    | .success link =>
        if link ≠ "" then
          if env.linkMutOk then
            .ok (update_status db2 uid .completed (some link) none env.now,
              [Event.execCall, Event.linkMut link true])
          else
            let db3 := increment_retry db2 uid
            .ok (update_status db3 uid .failed none (some env.mutErrMsg)
              env.now, [Event.execCall, Event.linkMut link false])
        else
          let db3 := increment_retry db2 uid
          .ok (update_status db3 uid .failed none
            (some "Failed to get recording link") env.now, [Event.execCall])
    | .raiseErr msg =>
        let db3 := increment_retry db2 uid
        .ok (update_status db3 uid .failed none (some msg) env.now,
          [Event.execCall])
    | .interrupt =>
        .error (db2, [Event.execCall])

/-! ### Sequences of Local State Store operations

A small operation language over `LocalDB`, used to state store invariants
that hold after every sequence of store calls. -/

/-- One call to a mutating `LocalDB` method. -/
inductive DBOp
  | addOp (uid cc fn : String) (ln : Option String)
  | updOp (uid : String) (st : UserStatus) (link err : Option String)
      (now : Nat)
  | incOp (uid : String)
  | resetOp (uid : String)
deriving Repr

/-- Apply one store call. -/
def applyOp (db : DB) : DBOp → DB
  | .addOp uid cc fn ln => add_user db uid cc fn ln
  | .updOp uid st link err now => update_status db uid st link err now
  | .incOp uid => increment_retry db uid
  | .resetOp uid => reset_user db uid

/-- Apply a sequence of store calls, oldest first. -/
def applyOps (db : DB) (ops : List DBOp) : DB := ops.foldl applyOp db

/-- The per-record `processed_at` invariant of the spec:
`processed_at != null` exactly when the status is completed or failed. -/
def record_inv (r : UserRecord) : Bool :=
  r.processed_at.isSome == (r.status == .completed || r.status == .failed)

/-- The store invariant: every record satisfies `record_inv`. -/
def db_inv (db : DB) : Bool := db.all (fun p => record_inv p.2)

/-! ### Trace projections -/

/-- The event trace of a handler result, whether it returned normally or
re-raised `KeyboardInterrupt`. -/
def traceOf {α : Type} : Except (α × List Event) (α × List Event) → List Event
  | .ok (_, t) => t
  | .error (_, t) => t

/-- The event trace of a `process_get_mind_report_operation` result. -/
def mindTraceOf : Except (List Event) (List Event) → List Event
  | .ok t => t
  | .error t => t

/-! ### Concrete fixtures

Sample records, stores and environments used to evaluate the model on
closed inputs. -/

/-- A freshly observed subject: Pending, no retries, nothing stored. -/
def recPending : UserRecord :=
  { client_code := "c1"
    first_name := "Ada"
    last_name := some "L"
    status := .pending
    recording_link := none
    error_message := none
    retry_count := 0
    processed_at := none }

/-- A subject whose work completed earlier. -/
def recCompleted : UserRecord :=
  { recPending with
    status := .completed
    recording_link := some "https://x"
    processed_at := some 1 }

/-- A subject that failed beyond the default retry budget. -/
def recFailed : UserRecord :=
  { recPending with
    status := .failed
    error_message := some "boom"
    retry_count := 3
    processed_at := some 2 }

/-- A subject with a previously stored payload and error message. -/
def recStored : UserRecord :=
  { recPending with
    recording_link := some "old-link"
    error_message := some "old-err" }

/-- Store holding one Pending subject `u1`. -/
def dbPending : DB := [("u1", recPending)]

/-- Store holding one Completed subject `u1`. -/
def dbCompleted : DB := [("u1", recCompleted)]

/-- Store holding one Failed subject `u1` with `retry_count = 3`. -/
def dbFailed : DB := [("u1", recFailed)]

/-- Store holding one Pending subject `u1` with stored payload/error. -/
def dbStored : DB := [("u1", recStored)]

/-- A create environment where every remote call succeeds, the MySQL
pre-check reports the patient absent, and the executor behaves as given. -/
def envAllOk (exec : ExecResult) : CreateEnv :=
  { now := 5
    procOpOk := true
    procSyncOk := true
    mysql := some false
    mysqlSyncOk := true
    mysqlCompleteOk := true
    gateCompleteOk := true
    exec := exec
    linkMutOk := true
    completeMutOk := true
    repOk := fun _ => true
    intrOpOk := true
    intrSyncOk := true }

/-- Executor succeeded but the payload mutation raises. -/
def envMutFail : CreateEnv :=
  { envAllOk (.success "https://x") with linkMutOk := false }

/-- A mind-report environment where everything succeeds. -/
def mindEnvOk : MindEnv :=
  { procOpOk := true
    procSyncOk := true
    importRes := .ok "r.pdf"
    fileExistsB := true
    fileSize := .ok 10
    upload := .ok (some "https://file")
    linkMutOk := true
    completeMutOk := true
    saveErrMsg := "s"
    repOk := fun _ => true
    intrOpOk := true
    intrSyncOk := true }

/-- A routing environment built from the two above. -/
def opEnvOk (exec : ExecResult) : OpEnv :=
  { createEnv := envAllOk exec
    mindEnv := mindEnvOk
    repOk := fun _ => true }

/-- A legacy-engine environment whose executor raises `"X"`. -/
def legacyEnvFail : LegacyEnv :=
  { now := 5
    exec := .raiseErr "X"
    linkMutOk := true
    mutErrMsg := "m" }

/-! ## Store lemmas -/

/-- Reading back the key a keyed map-update targeted yields the updated
record.  All three SQL `UPDATE ... WHERE user_id = ?` methods share this
shape. -/
theorem get_user_map_if (uid : String) (g : UserRecord → UserRecord)
    (db : DB) :
    get_user (db.map (fun p => if p.1 == uid then (p.1, g p.2) else p)) uid
      = (get_user db uid).map g := by
  induction db with
  | nil => rfl
  | cons p t ih =>
      by_cases h : p.1 = uid
      · simp [get_user, List.find?, h]
      · have hb : (p.1 == uid) = false := beq_false_of_ne h
        simpa [get_user, List.find?, hb] using ih

/-- A keyed map-update leaves every other key's record unchanged. -/
theorem get_user_map_if_ne (uid uid' : String) (h : uid' ≠ uid)
    (g : UserRecord → UserRecord) (db : DB) :
    get_user (db.map (fun p => if p.1 == uid then (p.1, g p.2) else p)) uid'
      = get_user db uid' := by
  induction db with
  | nil => rfl
  | cons p t ih =>
      by_cases hp : p.1 = uid
      · have hb : (p.1 == uid) = true := by simp [hp]
        have hb2 : (p.1 == uid') = false := by
          simp [hp]; exact fun he => h he.symm
        simp [get_user, List.find?, hb, hb2] at ih ⊢
        simpa [get_user, hp] using ih
      · have hb : (p.1 == uid) = false := beq_false_of_ne hp
        by_cases hq : p.1 = uid'
        · have hb2 : (p.1 == uid') = true := by simp [hq]
          simp [get_user, List.find?, hb, hb2]
        · have hb2 : (p.1 == uid') = false := beq_false_of_ne hq
          simpa [get_user, List.find?, hb, hb2] using ih

/-- `update_status` then `get_user` on the same id. -/
theorem get_user_update_status (db : DB) (uid : String) (st : UserStatus)
    (link err : Option String) (now : Nat) :
    get_user (update_status db uid st link err now) uid
      = (get_user db uid).map (fun r => update_status_row r st link err now) :=
  get_user_map_if uid (fun r => update_status_row r st link err now) db

/-- `increment_retry` then `get_user` on the same id. -/
theorem get_user_increment_retry (db : DB) (uid : String) :
    get_user (increment_retry db uid) uid
      = (get_user db uid).map
          (fun r => { r with retry_count := r.retry_count + 1 }) :=
  get_user_map_if uid (fun r => { r with retry_count := r.retry_count + 1 }) db

/-- `reset_user` then `get_user` on the same id. -/
theorem get_user_reset_user (db : DB) (uid : String) :
    get_user (reset_user db uid) uid
      = (get_user db uid).map
          (fun r => { r with status := .pending, processed_at := none }) :=
  get_user_map_if uid
    (fun r => { r with status := .pending, processed_at := none }) db

/-- `add_user` on an absent id appends a fresh Pending record, and
`get_user` finds it. -/
theorem get_user_add_user_absent (db : DB) (uid cc fn : String)
    (ln : Option String) (h : get_user db uid = none) :
    get_user (add_user db uid cc fn ln) uid
      = some { client_code := cc
               first_name := fn
               last_name := ln
               status := .pending
               recording_link := none
               error_message := none
               retry_count := 0
               processed_at := none } := by
  rw [add_user, h]
  induction db with
  | nil => simp [get_user, List.find?]
  | cons p t ih =>
      have hb : (p.1 == uid) = false := by
        by_contra hc
        have : p.1 = uid := by
          cases hcb : (p.1 == uid) with
          | true => exact eq_of_beq hcb
          | false => exact absurd hcb hc
        simp [get_user, List.find?, this] at h
      have ht : get_user t uid = none := by
        simpa [get_user, List.find?, hb] using h
      simpa [get_user, List.find?, hb] using ih ht

/-- `add_user` on a present id is a no-op. -/
theorem add_user_present (db : DB) (uid cc fn : String)
    (ln : Option String) (r : UserRecord) (h : get_user db uid = some r) :
    add_user db uid cc fn ln = db := by
  rw [add_user, h]

/-! ## Reporter lemmas -/

/-- Unfolding of the reporter at a last remaining attempt. -/
theorem report_go_one (msg : String) (ok : Nat → Bool) (a : Nat) :
    report_go msg ok a 1
      = if ok a then (true, 1, [.opStatusMut "failed" (some msg) true])
        else (false, 1, [.opStatusMut "failed" (some msg) false]) := rfl

/-- Unfolding of the reporter with at least two remaining attempts. -/
theorem report_go_two (msg : String) (ok : Nat → Bool) (a n : Nat) :
    report_go msg ok a (n + 2)
      = if ok a then (true, 1, [.opStatusMut "failed" (some msg) true])
        else
          let r := report_go msg ok (a + 1) (n + 1)
          (r.1, r.2.1 + 1,
            .opStatusMut "failed" (some msg) false :: .waitEvent :: r.2.2) :=
  rfl

/-- Unfolding of the reporter when the current attempt succeeds. -/
theorem report_go_two_pos (msg : String) (ok : Nat → Bool) (a n : Nat)
    (h : ok a = true) :
    report_go msg ok a (n + 2)
      = (true, 1, [.opStatusMut "failed" (some msg) true]) := by
  rw [report_go_two, h]; rfl

/-- Unfolding of the reporter when the current attempt fails with more
attempts left. -/
theorem report_go_two_neg (msg : String) (ok : Nat → Bool) (a n : Nat)
    (h : ok a = false) :
    report_go msg ok a (n + 2)
      = ((report_go msg ok (a + 1) (n + 1)).1,
         (report_go msg ok (a + 1) (n + 1)).2.1 + 1,
         .opStatusMut "failed" (some msg) false :: .waitEvent ::
           (report_go msg ok (a + 1) (n + 1)).2.2) := by
  rw [report_go_two, h]; rfl

/-- The reporter makes at most `remaining` mutation attempts. -/
theorem report_go_attempts_le (msg : String) (ok : Nat → Bool) :
    ∀ (r a : Nat), (report_go msg ok a r).2.1 ≤ r
  | 0, _ => Nat.le_refl 0
  | 1, a => by
      cases hok : ok a
      · rw [report_go_one, hok]; exact Nat.le_refl 1
      · rw [report_go_one, hok]; exact Nat.le_refl 1
  | n + 2, a => by
      cases hok : ok a
      · rw [report_go_two_neg msg ok a n hok]
        have := report_go_attempts_le msg ok (n + 1) (a + 1)
        show (report_go msg ok (a + 1) (n + 1)).2.1 + 1 ≤ n + 2
        omega
      · rw [report_go_two_pos msg ok a n hok]
        show (1 : Nat) ≤ n + 2
        omega

/-- The reporter makes at least one attempt when any remain. -/
theorem report_go_attempts_pos (msg : String) (ok : Nat → Bool) :
    ∀ (r a : Nat), 0 < r → 0 < (report_go msg ok a r).2.1
  | 0, _, h => absurd h (by omega)
  | 1, a, _ => by
      cases hok : ok a
      · rw [report_go_one, hok]; exact Nat.zero_lt_one
      · rw [report_go_one, hok]; exact Nat.zero_lt_one
  | n + 2, a, _ => by
      cases hok : ok a
      · rw [report_go_two_neg msg ok a n hok]
        show 0 < (report_go msg ok (a + 1) (n + 1)).2.1 + 1
        omega
      · rw [report_go_two_pos msg ok a n hok]
        exact Nat.zero_lt_one

/-- The reporter acks exactly when one of the remaining attempts would
succeed. -/
theorem report_go_acked (msg : String) (ok : Nat → Bool) :
    ∀ (r a : Nat),
      ((report_go msg ok a r).1 = true ↔ ∃ i, i < r ∧ ok (a + i) = true)
  | 0, a => by
      constructor
      · intro h; exact absurd (show false = true from h) Bool.false_ne_true
      · rintro ⟨i, hi, _⟩; exact absurd hi (by omega)
  | 1, a => by
      cases hok : ok a
      · rw [report_go_one, hok]
        constructor
        · intro h; exact absurd (show false = true from h) Bool.false_ne_true
        · rintro ⟨i, hi, hoki⟩
          have hi0 : i = 0 := by omega
          subst hi0
          rw [Nat.add_zero, hok] at hoki
          exact absurd hoki Bool.false_ne_true
      · rw [report_go_one, hok]
        constructor
        · intro _; exact ⟨0, Nat.zero_lt_one, by rw [Nat.add_zero, hok]⟩
        · intro _; rfl
  | n + 2, a => by
      cases hok : ok a
      · rw [report_go_two_neg msg ok a n hok]
        have ih := report_go_acked msg ok (n + 1) (a + 1)
        constructor
        · intro h
          obtain ⟨i, hi, hoki⟩ :=
            ih.mp (show (report_go msg ok (a + 1) (n + 1)).1 = true from h)
          refine ⟨i + 1, by omega, ?_⟩
          rw [show a + (i + 1) = a + 1 + i from by omega]
          exact hoki
        · rintro ⟨i, hi, hoki⟩
          cases i with
          | zero =>
              rw [Nat.add_zero, hok] at hoki
              exact absurd hoki Bool.false_ne_true
          | succ j =>
              show (report_go msg ok (a + 1) (n + 1)).1 = true
              refine ih.mpr ⟨j, by omega, ?_⟩
              rw [show a + 1 + j = a + (j + 1) from by omega]
              exact hoki
      · rw [report_go_two_pos msg ok a n hok]
        constructor
        · intro _; exact ⟨0, by omega, by rw [Nat.add_zero, hok]⟩
        · intro _; rfl

/-- When an attempt succeeds and all earlier ones fail, the reporter stops
right there: `i + 1` attempts, ack `true`. -/
theorem report_go_first_success (msg : String) (ok : Nat → Bool) :
    ∀ (r a i : Nat), i < r → ok (a + i) = true →
      (∀ j, j < i → ok (a + j) = false) →
      (report_go msg ok a r).1 = true ∧ (report_go msg ok a r).2.1 = i + 1
  | 0, _, i, hi, _, _ => absurd hi (by omega)
  | 1, a, i, hi, hok, _ => by
      have hi0 : i = 0 := by omega
      subst hi0
      rw [Nat.add_zero] at hok
      rw [report_go_one, hok]
      exact ⟨rfl, rfl⟩
  | n + 2, a, i, hi, hok, hbefore => by
      cases i with
      | zero =>
          rw [Nat.add_zero] at hok
          rw [report_go_two_pos msg ok a n hok]
          exact ⟨rfl, rfl⟩
      | succ j =>
          have h0 : ok a = false := by
            have := hbefore 0 (by omega)
            rwa [Nat.add_zero] at this
          have ih := report_go_first_success msg ok (n + 1) (a + 1) j
            (by omega)
            (by rw [show a + 1 + j = a + (j + 1) from by omega]; exact hok)
            (fun k hk => by
              rw [show a + 1 + k = a + (k + 1) from by omega]
              exact hbefore (k + 1) (by omega))
          rw [report_go_two_neg msg ok a n h0]
          refine ⟨ih.1, ?_⟩
          show (report_go msg ok (a + 1) (n + 1)).2.1 + 1 = j + 1 + 1
          rw [ih.2]

/-- When every remaining attempt fails, the reporter returns `false` after
exactly `remaining` attempts. -/
theorem report_go_all_fail (msg : String) (ok : Nat → Bool) :
    ∀ (r a : Nat), (∀ i, i < r → ok (a + i) = false) →
      (report_go msg ok a r).1 = false ∧ (report_go msg ok a r).2.1 = r
  | 0, _, _ => ⟨rfl, rfl⟩
  | 1, a, hall => by
      have h0 : ok a = false := by
        have := hall 0 (by omega); rwa [Nat.add_zero] at this
      rw [report_go_one, h0]
      exact ⟨rfl, rfl⟩
  | n + 2, a, hall => by
      have h0 : ok a = false := by
        have := hall 0 (by omega); rwa [Nat.add_zero] at this
      have ih := report_go_all_fail msg ok (n + 1) (a + 1)
        (fun i hi => by
          rw [show a + 1 + i = a + (i + 1) from by omega]
          exact hall (i + 1) (by omega))
      rw [report_go_two_neg msg ok a n h0]
      refine ⟨ih.1, ?_⟩
      show (report_go msg ok (a + 1) (n + 1)).2.1 + 1 = n + 2
      rw [ih.2]

/-- One `wait(1.0)` separates consecutive reporter attempts. -/
theorem report_go_waits (msg : String) (ok : Nat → Bool) :
    ∀ (r a : Nat),
      countWaits (report_go msg ok a r).2.2 = (report_go msg ok a r).2.1 - 1
  | 0, _ => rfl
  | 1, a => by
      cases hok : ok a
      · rw [report_go_one, hok]; rfl
      · rw [report_go_one, hok]; rfl
  | n + 2, a => by
      cases hok : ok a
      · rw [report_go_two_neg msg ok a n hok]
        have ih := report_go_waits msg ok (n + 1) (a + 1)
        have hpos := report_go_attempts_pos msg ok (n + 1) (a + 1) (by omega)
        show countWaits (Event.opStatusMut "failed" (some msg) false ::
            Event.waitEvent :: (report_go msg ok (a + 1) (n + 1)).2.2)
          = (report_go msg ok (a + 1) (n + 1)).2.1 + 1 - 1
        have hw : countWaits (Event.opStatusMut "failed" (some msg) false ::
            Event.waitEvent :: (report_go msg ok (a + 1) (n + 1)).2.2)
          = countWaits (report_go msg ok (a + 1) (n + 1)).2.2 + 1 := by
          simp [countWaits, List.count_cons]
        rw [hw, ih]
        omega
      · rw [report_go_two_pos msg ok a n hok]; rfl

/-- Delivered "failed" reports of one reporter call: the message once when
the reporter acked, nothing otherwise. -/
theorem report_go_delivered (msg : String) (ok : Nat → Bool) :
    ∀ (r a : Nat),
      deliveredFailed (report_go msg ok a r).2.2
        = if (report_go msg ok a r).1 then [msg] else []
  | 0, _ => rfl
  | 1, a => by
      cases hok : ok a
      · rw [report_go_one, hok]
        simp [deliveredFailed]
      · rw [report_go_one, hok]
        simp [deliveredFailed]
  | n + 2, a => by
      cases hok : ok a
      · rw [report_go_two_neg msg ok a n hok]
        have ih := report_go_delivered msg ok (n + 1) (a + 1)
        show deliveredFailed (Event.opStatusMut "failed" (some msg) false ::
            Event.waitEvent :: (report_go msg ok (a + 1) (n + 1)).2.2)
          = if (report_go msg ok (a + 1) (n + 1)).1 then [msg] else []
        simpa [deliveredFailed, List.filterMap_cons] using ih
      · rw [report_go_two_pos msg ok a n hok]
        simp [deliveredFailed]

/-- The reporter's events contain no executor invocation. -/
theorem report_go_no_exec (msg : String) (ok : Nat → Bool) :
    ∀ (r a : Nat), countExec (report_go msg ok a r).2.2 = 0
  | 0, _ => rfl
  | 1, a => by
      cases hok : ok a
      · rw [report_go_one, hok]; rfl
      · rw [report_go_one, hok]; rfl
  | n + 2, a => by
      cases hok : ok a
      · rw [report_go_two_neg msg ok a n hok]
        have ih := report_go_no_exec msg ok (n + 1) (a + 1)
        show countExec (Event.opStatusMut "failed" (some msg) false ::
            Event.waitEvent :: (report_go msg ok (a + 1) (n + 1)).2.2) = 0
        have hw : countExec (Event.opStatusMut "failed" (some msg) false ::
            Event.waitEvent :: (report_go msg ok (a + 1) (n + 1)).2.2)
          = countExec (report_go msg ok (a + 1) (n + 1)).2.2 := by
          simp [countExec, List.count_cons]
        rw [hw, ih]
      · rw [report_go_two_pos msg ok a n hok]; rfl

/-! ## Gate lemmas -/

/-- The gate is false whenever the record exists with a non-Completed
status. -/
theorem is_user_processed_of_ne (db : DB) (uid : String) (r : UserRecord)
    (hr : get_user db uid = some r) (hst : r.status ≠ .completed) :
    is_user_processed db uid = false := by
  rw [is_user_processed, hr]
  simpa using hst

/-! ## Invariant lemmas -/

/-- A record written by `update_status` always satisfies the
`processed_at` invariant. -/
theorem record_inv_update_row (r : UserRecord) (st : UserStatus)
    (link err : Option String) (now : Nat) :
    record_inv (update_status_row r st link err now) = true := by
  cases st <;> rfl

/-- `increment_retry` does not change a record's invariant status. -/
theorem record_inv_inc (r : UserRecord) :
    record_inv { r with retry_count := r.retry_count + 1 } = record_inv r :=
  rfl

/-- A record written by `reset_user` satisfies the invariant. -/
theorem record_inv_reset (r : UserRecord) :
    record_inv { r with status := .pending, processed_at := none } = true :=
  rfl

/-- The Boolean invariant is the claimed bi-implication. -/
theorem record_inv_iff (r : UserRecord) :
    record_inv r = true ↔
      (r.processed_at ≠ none ↔
        (r.status = .completed ∨ r.status = .failed)) := by
  obtain ⟨cc, fn, ln, st, rl, em, rc, pa⟩ := r
  cases pa <;> cases st <;> simp [record_inv]

/-- Every store call preserves the store invariant. -/
theorem db_inv_applyOp (db : DB) (op : DBOp) (h : db_inv db = true) :
    db_inv (applyOp db op) = true := by
  cases op with
  | addOp uid cc fn ln =>
      show db_inv (add_user db uid cc fn ln) = true
      unfold add_user
      cases hg : get_user db uid with
      | some r => exact h
      | none =>
          rw [db_inv, List.all_append]
          rw [db_inv] at h
          rw [h]
          rfl
  | updOp uid st link err now =>
      show db_inv (update_status db uid st link err now) = true
      rw [db_inv, update_status, List.all_map, List.all_eq_true]
      intro p hp
      by_cases hb : p.1 == uid
      · simp only [Function.comp_apply, hb, if_true]
        exact record_inv_update_row p.2 st link err now
      · simp only [Function.comp_apply, hb, if_false]
        exact List.all_eq_true.mp h p hp
  | incOp uid =>
      show db_inv (increment_retry db uid) = true
      rw [db_inv, increment_retry, List.all_map, List.all_eq_true]
      intro p hp
      by_cases hb : p.1 == uid
      · simp only [Function.comp_apply, hb, if_true]
        rw [record_inv_inc]
        exact List.all_eq_true.mp h p hp
      · simp only [Function.comp_apply, hb, if_false]
        exact List.all_eq_true.mp h p hp
  | resetOp uid =>
      show db_inv (reset_user db uid) = true
      rw [db_inv, reset_user, List.all_map, List.all_eq_true]
      intro p hp
      by_cases hb : p.1 == uid
      · simp only [Function.comp_apply, hb, if_true]
        exact record_inv_reset p.2
      · simp only [Function.comp_apply, hb, if_false]
        exact List.all_eq_true.mp h p hp

/-- Store-call sequences preserve the store invariant. -/
theorem db_inv_applyOps (ops : List DBOp) :
    ∀ db : DB, db_inv db = true → db_inv (applyOps db ops) = true := by
  induction ops with
  | nil => exact fun db h => h
  | cons op t ih =>
      intro db h
      exact ih (applyOp db op) (db_inv_applyOp db op h)

/-! ## Handler lemmas -/

/-- `deliveredFailed` splits over trace concatenation. -/
theorem deliveredFailed_append (a b : List Event) :
    deliveredFailed (a ++ b) = deliveredFailed a ++ deliveredFailed b :=
  List.filterMap_append a b _

/-- The best-effort "processing" mutations never deliver a "failed"
report. -/
theorem deliveredFailed_processing (env : CreateEnv) :
    deliveredFailed (processingEvents env) = [] := by
  by_cases h : env.procOpOk = true
  · simp [processingEvents, deliveredFailed, h]
  · have h2 : env.procOpOk = false := by
      cases hb : env.procOpOk
      · rfl
      · exact absurd hb h
    simp [processingEvents, deliveredFailed, h2]

/-- `process_get_mind_report_operation` invokes its Task Executor on every
path: there is no idempotency gate in front of `import_mind_report`. -/
theorem mind_exec_invoked (menv : MindEnv) (uid cc : String) :
    Event.execCall ∈
      mindTraceOf (process_get_mind_report_operation menv uid cc) := by
  unfold process_get_mind_report_operation
  cases hir : menv.importRes with
  | interrupt => simp [mindTraceOf, hir]
  | runtimeErr m => simp [mindTraceOf, hir]
  | otherErr m => simp [mindTraceOf, hir]
  | ok path =>
      try simp only [hir]
      by_cases hpath : path = ""
      · rw [if_pos (Or.inl hpath)]
        simp [mindTraceOf]
      · cases hfe : menv.fileExistsB with
        | false =>
            rw [if_pos (Or.inr (by simp [hfe]))]
            simp [mindTraceOf]
        | true =>
            rw [if_neg (by simp [hpath, hfe])]
            cases hfs : menv.fileSize with
            | error m => simp [mindTraceOf, hfs]
            | ok n =>
                try simp only [hfs]
                cases n with
                | zero => simp [mindTraceOf]
                | succ k =>
                    cases hu : menv.upload with
                    | raiseErr m => simp [mindTraceOf, hu]
                    | ok fl =>
                        try simp only [hu]
                        by_cases hfl : fl.getD "" = ""
                        · rw [if_pos hfl]
                          simp [mindTraceOf]
                        · rw [if_neg hfl]
                          by_cases hs :
                              (menv.linkMutOk && menv.completeMutOk) = true
                          · rw [if_pos hs]
                            simp [mindTraceOf]
                          · rw [if_neg hs]
                            simp [mindTraceOf]

/-! ## Claims -/

/-- C8: `add_user` inserts a fresh Pending record with `retry_count = 0`
when no record exists for the subject id, and when a record exists it
succeeds as a no-op, leaving every field of the existing record (indeed the
whole store) unchanged. -/
theorem claim_C8_add_user (db : DB) (uid cc fn : String) (ln : Option String) :
    (get_user db uid = none →
      get_user (add_user db uid cc fn ln) uid
        = some { client_code := cc
                 first_name := fn
                 last_name := ln
                 status := .pending
                 recording_link := none
                 error_message := none
                 retry_count := 0
                 processed_at := none })
    ∧ (∀ r, get_user db uid = some r → add_user db uid cc fn ln = db) :=
  ⟨fun h => get_user_add_user_absent db uid cc fn ln h,
   fun r h => add_user_present db uid cc fn ln r h⟩

/-- Witness for C8 at a concrete store: inserting `u2` into `dbPending`
creates the fresh Pending row, and re-adding the present `u1` changes
nothing. -/
theorem claim_C8_add_user_witness :
    get_user (add_user dbPending "u2" "c2" "Eva" none) "u2"
      = some { client_code := "c2"
               first_name := "Eva"
               last_name := none
               status := .pending
               recording_link := none
               error_message := none
               retry_count := 0
               processed_at := none }
    ∧ add_user dbPending "u1" "zz" "zz" none = dbPending :=
  ⟨(claim_C8_add_user dbPending "u2" "c2" "Eva" none).1 rfl,
   (claim_C8_add_user dbPending "u1" "zz" "zz" none).2 recPending rfl⟩

/-- C9: `is_user_processed` is true exactly for an existing record with
status Completed; Failed (whatever the retry count), Pending, Processing
and absent subjects are all ungated, and a Failed subject is re-dispatched:
its redelivered create operation reaches the Task Executor. -/
theorem claim_C9_idempotency_gate (db : DB) (uid : String) :
    (is_user_processed db uid = true ↔
      ∃ r, get_user db uid = some r ∧ r.status = .completed)
    ∧ (∀ r, get_user db uid = some r → r.status ≠ .completed →
        is_user_processed db uid = false)
    ∧ (get_user db uid = none → is_user_processed db uid = false)
    ∧ (∀ (env : CreateEnv) (cc fn ln : String) r,
        env.mysql = some false →
        get_user db uid = some r → r.status = .failed →
        Event.execCall ∈
          traceOf (process_create_user_operation env uid cc fn ln db)) := by
  refine ⟨?_, ?_, ?_, ?_⟩
  · cases h : get_user db uid with
    | none =>
        rw [is_user_processed, h]
        simp
    | some r =>
        rw [is_user_processed, h]
        simp
  · exact fun r hr hst => is_user_processed_of_ne db uid r hr hst
  · intro h
    rw [is_user_processed, h]
  · intro env cc fn ln r hmysql hr hst
    have hgate : is_user_processed db uid = false :=
      is_user_processed_of_ne db uid r hr (by rw [hst]; intro hc; cases hc)
    unfold process_create_user_operation
    rw [hgate]
    simp only [Bool.false_eq_true, if_false]
    rw [hmysql]
    cases hex : env.exec with
    | success link =>
        by_cases hl : pyStrip link = ""
        · simp [traceOf, hl]
        · simp [traceOf, hl]
    | raiseErr m => simp [traceOf]
    | interrupt => simp [traceOf]

/-- Witness for C9 at concrete stores: the gate on `dbCompleted`,
`dbFailed` (retry_count 3 ≥ max_retries 3) and an absent id, and the
executor invocation on redelivery of the failed subject. -/
theorem claim_C9_idempotency_gate_witness :
    is_user_processed dbCompleted "u1" = true
    ∧ is_user_processed dbFailed "u1" = false
    ∧ is_user_processed dbPending "u2" = false
    ∧ Event.execCall ∈
        traceOf (process_create_user_operation (envAllOk (.raiseErr "X"))
          "u1" "c1" "Ada" "L" dbFailed) :=
  ⟨(claim_C9_idempotency_gate dbCompleted "u1").1.mpr
      ⟨recCompleted, rfl, rfl⟩,
   (claim_C9_idempotency_gate dbFailed "u1").2.1 recFailed rfl (by decide),
   (claim_C9_idempotency_gate dbPending "u2").2.2.1 rfl,
   (claim_C9_idempotency_gate dbFailed "u1").2.2.2 (envAllOk (.raiseErr "X"))
     "c1" "Ada" "L" recFailed rfl rfl rfl⟩

/-- C10: `update_status` overwrites `recording_link` and `error_message`
with exactly its arguments (`None` when omitted): updating a record's
status without the payload erases a previously stored payload and error
message. -/
theorem claim_C10_update_status_overwrites (db : DB) (uid : String)
    (st : UserStatus) (link err : Option String) (now : Nat)
    (r : UserRecord) (h : get_user db uid = some r) :
    get_user (update_status db uid st link err now) uid
      = some (update_status_row r st link err now)
    ∧ (update_status_row r st link err now).recording_link = link
    ∧ (update_status_row r st link err now).error_message = err := by
  refine ⟨?_, rfl, rfl⟩
  rw [get_user_update_status, h]
  rfl

/-- Witness for C10: updating `u1` of `dbStored` (payload "old-link",
error "old-err") to Processing with both optionals omitted erases both. -/
theorem claim_C10_update_status_overwrites_witness :
    get_user (update_status dbStored "u1" .processing none none 7) "u1"
      = some (update_status_row recStored .processing none none 7)
    ∧ (update_status_row recStored .processing none none 7).recording_link
        = none
    ∧ (update_status_row recStored .processing none none 7).error_message
        = none :=
  claim_C10_update_status_overwrites dbStored "u1" .processing none none 7
    recStored rfl

/-- C4: starting from the empty store, after every sequence of store calls
(`add_user`, `update_status`, `increment_retry`, `reset_user`) every record
satisfies: `processed_at` is non-null iff its status is Completed or
Failed. -/
theorem claim_C4_processed_at_invariant (ops : List DBOp) :
    db_inv (applyOps [] ops) = true
    ∧ ∀ p ∈ applyOps [] ops,
        (p.2.processed_at ≠ none ↔
          (p.2.status = .completed ∨ p.2.status = .failed)) := by
  have h := db_inv_applyOps ops [] rfl
  refine ⟨h, fun p hp => ?_⟩
  rw [db_inv] at h
  exact (record_inv_iff p.2).mp (List.all_eq_true.mp h p hp)

/-- Witness for C4 at a concrete call sequence: add, complete, reset,
fail. -/
theorem claim_C4_processed_at_invariant_witness :
    db_inv (applyOps []
      [DBOp.addOp "u" "c" "f" none,
       DBOp.updOp "u" .completed (some "l") none 3,
       DBOp.resetOp "u",
       DBOp.incOp "u",
       DBOp.updOp "u" .failed none (some "e") 4]) = true :=
  (claim_C4_processed_at_invariant
    [DBOp.addOp "u" "c" "f" none,
     DBOp.updOp "u" .completed (some "l") none 3,
     DBOp.resetOp "u",
     DBOp.incOp "u",
     DBOp.updOp "u" .failed none (some "e") 4]).1

/-- C6: `report_error_to_server` attempts the upstream mutation at most `N`
times with one fixed `wait(1.0)` between consecutive attempts, returns true
as soon as an attempt succeeds (stopping immediately), returns false after
all `N` attempts fail, and — being a total function into `Bool` whose loop
catches every mutation exception — never raises to its caller. -/
theorem claim_C6_reporter (msg : String) (ok : Nat → Bool) (N : Nat) :
    (report_error_to_server msg ok N).2.1 ≤ N
    ∧ ((report_error_to_server msg ok N).1 = true ↔
        ∃ i, i < N ∧ ok i = true)
    ∧ (∀ i, i < N → ok i = true → (∀ j, j < i → ok j = false) →
        (report_error_to_server msg ok N).1 = true
        ∧ (report_error_to_server msg ok N).2.1 = i + 1)
    ∧ ((∀ i, i < N → ok i = false) →
        (report_error_to_server msg ok N).1 = false
        ∧ (report_error_to_server msg ok N).2.1 = N)
    ∧ countWaits (report_error_to_server msg ok N).2.2
        = (report_error_to_server msg ok N).2.1 - 1 := by
  refine ⟨report_go_attempts_le msg ok N 0, ?_, ?_, ?_,
    report_go_waits msg ok N 0⟩
  · have h := report_go_acked msg ok N 0
    simpa using h
  · intro i hi hok hb
    exact report_go_first_success msg ok N 0 i hi (by simpa using hok)
      (fun j hj => by simpa using hb j hj)
  · intro hall
    exact report_go_all_fail msg ok N 0 (fun i hi => by simpa using hall i hi)

/-- Witness for C6: with the default 3 attempts and an oracle that succeeds
only on the second try, the reporter acks after exactly 2 attempts with one
wait between them. -/
theorem claim_C6_reporter_witness :
    (report_error_to_server "e" (fun i => decide (i = 1)) 3).1 = true
    ∧ (report_error_to_server "e" (fun i => decide (i = 1)) 3).2.1 = 2 :=
  (claim_C6_reporter "e" (fun i => decide (i = 1)) 3).2.2.1 1 (by omega) rfl
    (fun j hj => by
      have : j = 0 := by omega
      subst this
      rfl)

/-- C7: in a batch containing no `KeyboardInterrupt`, every operation with
remote status `"pending"` is dispatched to `process_operation`, even when
earlier operations raised (non-interrupt) exceptions — those are caught at
the loop boundary and the loop moves on; the loop is never abandoned. -/
theorem claim_C7_batch_continues (batch : List (String × StepOutcome))
    (hno : ∀ x ∈ batch, x.2 ≠ StepOutcome.intr) :
    (runBatch batch).1 = batch.map (fun x => decide (x.1 = "pending"))
    ∧ (runBatch batch).2 = false := by
  induction batch with
  | nil => exact ⟨rfl, rfl⟩
  | cons x t ih =>
      obtain ⟨st, b⟩ := x
      obtain ⟨h1, h2⟩ := ih (fun y hy => hno y (List.mem_cons_of_mem _ hy))
      by_cases hst : st = "pending"
      · have hb : b ≠ .intr := hno (st, b) (List.mem_cons_self _ t)
        cases b with
        | intr => exact absurd rfl hb
        | ok => simp [runBatch, hst, h1, h2]
        | exn => simp [runBatch, hst, h1, h2]
      · simp [runBatch, hst, h1, h2]

/-- Witness for C7: a batch whose second pending operation raises — the
third pending operation and the skip of the non-pending one still happen. -/
theorem claim_C7_batch_continues_witness :
    (runBatch [("pending", .ok), ("pending", .exn), ("done", .ok),
        ("pending", .ok)]).1
      = [true, true, false, true]
    ∧ (runBatch [("pending", .ok), ("pending", .exn), ("done", .ok),
        ("pending", .ok)]).2 = false := by
  have h := claim_C7_batch_continues
    [("pending", .ok), ("pending", .exn), ("done", .ok), ("pending", .ok)]
    (by decide)
  exact ⟨by rw [h.1]; rfl, h.2⟩

/-- C5: an operation whose `operationType` matches no registered handler
invokes no Task Executor, returns normally (so the batch loop continues),
and — when the remote accepts one of the reporter's attempts — delivers
exactly one upstream "failed" report, whose message extends the text
`"Unknown operation type"`. -/
theorem claim_C5_unknown_operation_type (env : OpEnv)
    (opType uid cc fn ln : String) (db : Option DB)
    (hne1 : opType ≠ "create_user") (hne2 : opType ≠ "get_mind_report")
    (hack : ∃ i, i < 3 ∧ env.repOk i = true) :
    ∃ tr, process_operation env opType uid cc fn ln db = .ok (db, tr)
      ∧ countExec tr = 0
      ∧ deliveredFailed tr = ["Unknown operation type: " ++ opType]
      ∧ ∃ s, ("Unknown operation type: " ++ opType)
          = "Unknown operation type" ++ s := by
  refine ⟨reportEv ("Unknown operation type: " ++ opType) env.repOk, ?_, ?_,
    ?_, ⟨": " ++ opType, ?_⟩⟩
  · unfold process_operation
    rw [if_neg hne1, if_neg hne2]
  · exact report_go_no_exec _ env.repOk 3 0
  · have hacked : (report_go ("Unknown operation type: " ++ opType)
        env.repOk 0 3).1 = true := by
      refine (report_go_acked _ env.repOk 3 0).mpr ?_
      obtain ⟨i, hi, hoki⟩ := hack
      exact ⟨i, hi, by simpa using hoki⟩
    have hd := report_go_delivered ("Unknown operation type: " ++ opType)
      env.repOk 3 0
    rw [hacked] at hd
    simpa [reportEv, report_error_to_server] using hd
  · rw [← String.append_assoc]
    rfl

/-- Witness for C5 at the spec's Scenario D input `"delete_user_v2"` with an
all-accepting remote. -/
theorem claim_C5_unknown_operation_type_witness :
    ∃ tr, process_operation (opEnvOk (.success "x")) "delete_user_v2"
        "u1" "c1" "Ada" "L" (some dbPending) = .ok (some dbPending, tr)
      ∧ countExec tr = 0
      ∧ deliveredFailed tr = ["Unknown operation type: delete_user_v2"]
      ∧ ∃ s, ("Unknown operation type: delete_user_v2")
          = "Unknown operation type" ++ s :=
  claim_C5_unknown_operation_type (opEnvOk (.success "x")) "delete_user_v2"
    "u1" "c1" "Ada" "L" (some dbPending) (by decide) (by decide)
    ⟨0, by omega, rfl⟩

/-- C1 counterexample: a `get_mind_report` operation for subject `u1`, whose
local record is Completed, still invokes its Task Executor once —
`process_get_mind_report_operation` never consults the Local State Store, so
the claim's "does not invoke the Task Executor" fails for this received
operation. -/
theorem claim_C1_counterexample :
    is_user_processed dbCompleted "u1" = true
    ∧ countExec (traceOf (process_operation (opEnvOk (.success "x"))
        "get_mind_report" "u1" "c1" "Ada" "L" (some dbCompleted))) = 1 :=
  ⟨rfl, rfl⟩

/-- C1 amended: for a `create_user` operation whose subject has local status
Completed, the handler skips execution — the store is unchanged, the trace is
exactly one `operations:completeOperation` attempt (the upstream completion
acknowledgment) and contains no executor call; `get_mind_report` operations,
by contrast, never consult the store and invoke their executor on every
path. -/
theorem claim_C1_amended_completed_gate (env : CreateEnv)
    (uid cc fn ln : String) (db : DB)
    (h : is_user_processed db uid = true) :
    process_create_user_operation env uid cc fn ln db
      = .ok (db, [Event.completeAttempt env.gateCompleteOk])
    ∧ countExec [Event.completeAttempt env.gateCompleteOk] = 0
    ∧ countCompleteAttempts [Event.completeAttempt env.gateCompleteOk] = 1
    ∧ ∀ (menv : MindEnv) (uid2 cc2 : String),
        Event.execCall ∈ mindTraceOf
          (process_get_mind_report_operation menv uid2 cc2) := by
  refine ⟨?_, rfl, rfl, fun menv uid2 cc2 => mind_exec_invoked menv uid2 cc2⟩
  unfold process_create_user_operation
  rw [h]
  rfl

/-- Witness for the amended C1 at the Completed store `dbCompleted`. -/
theorem claim_C1_amended_completed_gate_witness :
    process_create_user_operation (envAllOk (.success "x")) "u1" "c1" "Ada"
      "L" dbCompleted = .ok (dbCompleted, [Event.completeAttempt true])
    ∧ countExec [Event.completeAttempt true] = 0
    ∧ countCompleteAttempts [Event.completeAttempt true] = 1 :=
  ⟨(claim_C1_amended_completed_gate (envAllOk (.success "x")) "u1" "c1" "Ada"
      "L" dbCompleted rfl).1,
   (claim_C1_amended_completed_gate (envAllOk (.success "x")) "u1" "c1" "Ada"
      "L" dbCompleted rfl).2.1,
   (claim_C1_amended_completed_gate (envAllOk (.success "x")) "u1" "c1" "Ada"
      "L" dbCompleted rfl).2.2.1⟩

/-- C2 counterexample: subject `u1` is Pending; the executor raises `"X"`;
the unified dispatcher marks the record Failed with error `"X"` and delivers
one upstream "failed" report — but `retry_count` stays 0, not the claimed 1:
`process_create_user_operation` never calls `increment_retry`. -/
theorem claim_C2_counterexample :
    (get_user dbPending "u1").map (fun r => (r.status, r.retry_count))
      = some (UserStatus.pending, 0)
    ∧ ∃ db2 tr,
        process_create_user_operation (envAllOk (.raiseErr "X")) "u1" "c1"
          "Ada" "L" dbPending = .ok (db2, tr)
        ∧ (get_user db2 "u1").map
            (fun r => (r.status, r.retry_count, r.error_message))
          = some (UserStatus.failed, 0, some "X")
        ∧ deliveredFailed tr = ["X"] :=
  ⟨rfl, _, _, rfl, rfl, rfl⟩

/-- C2 amended: on executor failure the unified dispatcher sets local status
Failed storing the executor's message and, when the remote accepts a
reporter attempt, delivers exactly one upstream "failed" report carrying it,
but leaves `retry_count` unchanged (still 0 after the first failure of a
Pending subject); the legacy `sync_engine.process_user` increments
`retry_count` by one and sets Failed, but sends no upstream report at all
(its trace is just the executor call). -/
theorem claim_C2_amended_failure_paths (uid cc fn ln : String) (db : DB)
    (r : UserRecord) (env : CreateEnv) (lenv : LegacyEnv) (msg : String)
    (hr : get_user db uid = some r) (hst : r.status ≠ .completed)
    (hmysql : env.mysql = some false) (hexec : env.exec = .raiseErr msg)
    (hlexec : lenv.exec = .raiseErr msg)
    (hack : ∃ i, i < 3 ∧ env.repOk i = true) :
    (∃ db2 tr,
      process_create_user_operation env uid cc fn ln db = .ok (db2, tr)
      ∧ deliveredFailed tr = [msg]
      ∧ (get_user db2 uid).map
          (fun q => (q.status, q.retry_count, q.error_message))
        = some (.failed, r.retry_count, some msg))
    ∧ (∃ db3,
      process_user lenv uid cc fn ln db = .ok (db3, [Event.execCall])
      ∧ (get_user db3 uid).map
          (fun q => (q.status, q.retry_count, q.error_message))
        = some (.failed, r.retry_count + 1, some msg)) := by
  have hgate : is_user_processed db uid = false :=
    is_user_processed_of_ne db uid r hr hst
  constructor
  · unfold process_create_user_operation
    rw [hgate, hmysql, hexec, hr]
    refine ⟨_, _, rfl, ?_, ?_⟩
    · rw [deliveredFailed_append, deliveredFailed_processing]
      have hskip : deliveredFailed (Event.execCall ::
          (report_error_to_server msg env.repOk 3).2.2)
        = deliveredFailed (report_error_to_server msg env.repOk 3).2.2 := by
        simp [deliveredFailed]
      rw [hskip]
      have hacked : (report_go msg env.repOk 0 3).1 = true := by
        refine (report_go_acked msg env.repOk 3 0).mpr ?_
        obtain ⟨i, hi, hoki⟩ := hack
        exact ⟨i, hi, by simpa using hoki⟩
      have hd := report_go_delivered msg env.repOk 3 0
      rw [hacked] at hd
      simpa [report_error_to_server] using hd
    · rw [get_user_update_status, get_user_update_status, hr]
      rfl
  · unfold process_user
    rw [hgate, hlexec, hr]
    refine ⟨_, rfl, ?_⟩
    rw [get_user_update_status, get_user_increment_retry,
      get_user_update_status, hr]
    rfl

/-- Witness for the amended C2: Pending `u1`, executor raising `"X"`, an
all-accepting remote for the unified engine and the legacy environment. -/
theorem claim_C2_amended_failure_paths_witness :
    (∃ db2 tr,
      process_create_user_operation (envAllOk (.raiseErr "X")) "u1" "c1"
        "Ada" "L" dbPending = .ok (db2, tr)
      ∧ deliveredFailed tr = ["X"]
      ∧ (get_user db2 "u1").map
          (fun q => (q.status, q.retry_count, q.error_message))
        = some (.failed, recPending.retry_count, some "X"))
    ∧ (∃ db3,
      process_user legacyEnvFail "u1" "c1" "Ada" "L" dbPending
        = .ok (db3, [Event.execCall])
      ∧ (get_user db3 "u1").map
          (fun q => (q.status, q.retry_count, q.error_message))
        = some (.failed, recPending.retry_count + 1, some "X")) :=
  claim_C2_amended_failure_paths "u1" "c1" "Ada" "L" dbPending recPending
    (envAllOk (.raiseErr "X")) legacyEnvFail "X" rfl (by decide) rfl rfl rfl
    ⟨0, by omega, rfl⟩

/-- C3: when the executor returns a non-blank recording link, the unified
dispatcher marks the subject Completed with the payload stored — whatever
the `linkMutOk` / `completeMutOk` outcomes of the subsequent remote payload
mutations are (both fields of `env` are universally quantified here): a
mutation failure at that point never produces a Failed transition and never
loses the payload. -/
theorem claim_C3_success_always_completes (env : CreateEnv)
    (uid cc fn ln link : String) (db : DB)
    (hgate : is_user_processed db uid = false)
    (hmysql : env.mysql = some false)
    (hexec : env.exec = .success link)
    (hlink : pyStrip link ≠ "") :
    ∃ db2 tr,
      process_create_user_operation env uid cc fn ln db = .ok (db2, tr)
      ∧ (get_user db2 uid).map (fun q => (q.status, q.recording_link))
          = some (UserStatus.completed, some link) := by
  unfold process_create_user_operation
  rw [hgate, hmysql, hexec]
  dsimp only
  rw [if_pos hlink]
  cases hg : get_user db uid with
  | none =>
      refine ⟨_, _, rfl, ?_⟩
      dsimp only
      rw [get_user_update_status, get_user_update_status,
        get_user_add_user_absent db uid cc fn (some ln) hg]
      rfl
  | some r =>
      refine ⟨_, _, rfl, ?_⟩
      dsimp only
      rw [get_user_update_status, get_user_update_status, hg]
      rfl

/-- Witness for C3: Pending `u1`, executor success `"https://x"`, with the
payload mutation raising (`envMutFail`) — locally still Completed with the
payload. -/
theorem claim_C3_success_always_completes_witness :
    ∃ db2 tr,
      process_create_user_operation envMutFail "u1" "c1" "Ada" "L" dbPending
        = .ok (db2, tr)
      ∧ (get_user db2 "u1").map (fun q => (q.status, q.recording_link))
          = some (UserStatus.completed, some "https://x") :=
  claim_C3_success_always_completes envMutFail "u1" "c1" "Ada" "L"
    "https://x" dbPending rfl rfl rfl (by decide)

end CoordinateSniper
